import Mathlib

/-!
# A shallow embedding of the SimpleBasicLSPDAPServer core

This file embeds, in Lean 4, the BASIC-interpreter core and the DAP dispatch
logic of the repository: the `Value` variant, the variable store, the runtime
helpers (`add`, `divide`, `isEqual`, ...), the lexer, the recursive-descent
parser, the fueled tree-walking evaluator, and the DAP server's message
dispatch and the session handlers relevant to launch/disconnect.

Modelling conventions:
* C++ `int` is `Int` (the values arising in this development stay far inside
  32-bit range; `std::stoi` range failures are modelled explicitly),
* C++ `double` is `ℚ` (every double operation exercised by a theorem below is
  exact in binary floating point at the operand sizes involved),
* functions that `throw` are modelled in `Except String`,
* the unbounded `while` loops of the interpreter and parser take an explicit
  fuel argument which strictly decreases at every recursive call, so that all
  definitions compute by kernel reduction.
-/

namespace SBasic

/-- `using Value = std::variant<int, double, std::string, bool>;`
The constructor order mirrors the variant's alternative order, which matters:
the code tests `value.index()` against `0`. -/
inductive Value where
  | vint (n : Int)
  | vfloat (q : ℚ)
  | vstr (s : String)
  | vbool (b : Bool)
  deriving DecidableEq, Repr

/-- `std::variant::index()` of a `Value`. -/
def Value.index : Value → Nat
  | .vint _ => 0
  | .vfloat _ => 1
  | .vstr _ => 2
  | .vbool _ => 3

/-- `Value{}` — a default-constructed variant holds its first alternative,
`int`, value-initialised to `0`. -/
def Value.defaultV : Value := .vint 0

/-- The `std::visit` body used throughout the runtime: `int`/`double` cast to
`double`, everything else contributes `0.0`. -/
def toDouble0 : Value → ℚ
  | .vint n => (n : ℚ)
  | .vfloat q => q
  | _ => 0

/-- The step-value variant of the same visitor: non-numeric contributes `1.0`
(`executeForStatement`'s `stepVal` lambda). -/
def toDouble1 : Value → ℚ
  | .vint n => (n : ℚ)
  | .vfloat q => q
  | _ => 1

/-- `int`/`double` alternatives as a rational, `none` otherwise. -/
def numVal : Value → Option ℚ
  | .vint n => some (n : ℚ)
  | .vfloat q => some q
  | _ => none

/-! ## Variable store (`Variables`, interpreter/variables.cpp)

`std::map<std::string, Value>` modelled as an association list; only lookup,
insertion and emptiness are observable in this development. -/

/-- The variable store. -/
abbrev Vars := List (String × Value)

/-- `variables_[name] = value;` — replace an existing binding or append. -/
def Variables.set (name : String) (v : Value) : Vars → Vars
  | [] => [(name, v)]
  | (m, w) :: rest =>
      if m = name then (name, v) :: rest
      else (m, w) :: Variables.set name v rest

/-- `Variables::get` — defined variables return their value, undefined names
return the default value `Value{0}`. -/
def Variables.get (name : String) (vars : Vars) : Value :=
  match List.lookup name vars with
  | some v => v
  | none => .vint 0

/-- `Variables::exists`. -/
def Variables.existsVar (name : String) (vars : Vars) : Bool :=
  (List.lookup name vars).isSome

/-! ## Runtime comparison and arithmetic helpers (interpreter/runtime.cpp) -/

/-- `Runtime::isTruthy`: boolean as-is, numerics nonzero, strings non-empty. -/
def Runtime.isTruthy : Value → Bool
  | .vbool b => b
  | .vint n => n != 0
  | .vfloat q => q != 0
  | .vstr s => !s.isEmpty

/-- `Runtime::isEqual`: same-alternative pairs compare directly (numerics via
`double` casts); mixed pairs fall to the double-conversion branch where a
non-numeric operand contributes `0.0`. -/
def Runtime.isEqual : Value → Value → Bool
  | .vstr a, .vstr b => a == b
  | .vint a, .vint b => ((a : ℚ) == (b : ℚ))
  | .vfloat a, .vfloat b => a == b
  | .vbool a, .vbool b => a == b
  | a, b => toDouble0 a == toDouble0 b

/-- `Runtime::isLessThan`: same-alternative pairs use the underlying `<`
(lexicographic for strings, `false < true` for bools); mixed pairs compare the
double conversions, non-numerics contributing `0.0`. -/
def Runtime.isLessThan : Value → Value → Bool
  | .vstr a, .vstr b => a < b
  | .vint a, .vint b => a < b
  | .vfloat a, .vfloat b => a < b
  | .vbool a, .vbool b => !a && b
  | a, b => toDouble0 a < toDouble0 b

/-- `Runtime::isGreaterThan`, mirror image of `isLessThan`. -/
def Runtime.isGreaterThan : Value → Value → Bool
  | .vstr a, .vstr b => b < a
  | .vint a, .vint b => b < a
  | .vfloat a, .vfloat b => b < a
  | .vbool a, .vbool b => a && !b
  | a, b => toDouble0 b < toDouble0 a

/-- `Runtime::add`: two strings concatenate; two numerics add after promotion
to `double`; every other combination silently yields `Value{0.0}`. -/
def Runtime.add (a b : Value) : Value :=
  match a, b with
  | .vstr x, .vstr y => .vstr (x ++ y)
  | _, _ =>
    match numVal a, numVal b with
    | some x, some y => .vfloat (x + y)
    | _, _ => .vfloat 0

/-- `Runtime::subtract`. -/
def Runtime.subtract (a b : Value) : Value :=
  match numVal a, numVal b with
  | some x, some y => .vfloat (x - y)
  | _, _ => .vfloat 0

/-- `Runtime::multiply`. -/
def Runtime.multiply (a b : Value) : Value :=
  match numVal a, numVal b with
  | some x, some y => .vfloat (x * y)
  | _, _ => .vfloat 0

/-- `Runtime::divide`: numeric ÷ numeric with an explicit zero-divisor check
that throws; non-numeric combinations yield `Value{0.0}`. -/
def Runtime.divide (a b : Value) : Except String Value :=
  match numVal a, numVal b with
  | some x, some y =>
      if y = 0 then .error "Division by zero"
      else .ok (.vfloat (x / y))
  | _, _ => .ok (.vfloat 0)

/-- Floor of a rational (the denominator is positive, so flooring integer
division of the numerator by the denominator). -/
def qfloor (q : ℚ) : Int := q.num.fdiv (q.den : Int)

/-- Truncation toward zero, as `std::fmod` requires. -/
def qtrunc (q : ℚ) : Int := if 0 ≤ q then qfloor q else -qfloor (-q)

/-- `std::fmod x y = x - trunc(x / y) * y` (exact in the rational model). -/
def qfmod (x y : ℚ) : ℚ := x - (qtrunc (x / y) : ℚ) * y

/-- `Runtime::modulo`: numeric pairs use `std::fmod` after an explicit
zero-divisor check that throws; non-numeric combinations yield `Value{0.0}`. -/
def Runtime.modulo (a b : Value) : Except String Value :=
  match numVal a, numVal b with
  | some x, some y =>
      if y = 0 then .error "Modulo by zero"
      else .ok (.vfloat (qfmod x y))
  | _, _ => .ok (.vfloat 0)

/-- `Runtime::power` (`std::pow` on doubles). Only integral exponents are
representable in the rational model; a fractional exponent (whose real power
is generally irrational) is mapped to `0`. No theorem below depends on this
operation. -/
def Runtime.power (a b : Value) : Value :=
  match numVal a, numVal b with
  | some x, some y =>
      if y.den = 1 then
        if 0 ≤ y.num then .vfloat (x ^ y.num.toNat)
        else .vfloat ((1 / x) ^ (-y.num).toNat)
      else .vfloat 0
  | _, _ => .vfloat 0

end SBasic

namespace SBasic

/-! ## Tokens and the lexer (interpreter/lexer.cpp) -/

/-- `enum class TokenType`. -/
inductive TokenType where
  | LET | IF | THEN | ELSE | FOR | TO | STEP | NEXT | WHILE | WEND | DO
  | LOOP | UNTIL | SUB | END | FUNCTION | RETURN | PRINT | INPUT | READ
  | DATA | RESTORE | DIM
  | PLUS | MINUS | MULTIPLY | DIVIDE | MOD | POWER
  | EQUAL | NOT_EQUAL | LESS | LESS_EQUAL | GREATER | GREATER_EQUAL
  | AND | OR | NOT
  | LPAREN | RPAREN | COMMA | SEMICOLON | COLON | ASSIGN
  | NUMBER | STRING | IDENTIFIER
  | NEWLINE | EOF_TOKEN | UNKNOWN
  deriving DecidableEq, Repr

/-- `struct Token`. -/
structure Token where
  type : TokenType
  value : String
  line : Int
  col : Int
  deriving DecidableEq, Repr

/-- `Lexer::setupKeywords` — the keyword table. -/
def keywordTable : List (String × TokenType) :=
  [("LET", .LET), ("IF", .IF), ("THEN", .THEN), ("ELSE", .ELSE),
   ("FOR", .FOR), ("TO", .TO), ("STEP", .STEP), ("NEXT", .NEXT),
   ("WHILE", .WHILE), ("WEND", .WEND), ("DO", .DO), ("LOOP", .LOOP),
   ("UNTIL", .UNTIL), ("SUB", .SUB), ("END", .END),
   ("FUNCTION", .FUNCTION), ("RETURN", .RETURN), ("PRINT", .PRINT),
   ("INPUT", .INPUT), ("READ", .READ), ("DATA", .DATA),
   ("RESTORE", .RESTORE), ("DIM", .DIM)]

/-- `std::isspace` in the default locale. -/
def cIsSpace (c : Char) : Bool :=
  c == ' ' || c == '\t' || c == '\n' || c == '\x0B' || c == '\x0C' || c == '\r'

/-- `std::isdigit`. -/
def cIsDigit (c : Char) : Bool := '0' ≤ c && c ≤ '9'

/-- `std::isalpha` in the default locale. -/
def cIsAlpha (c : Char) : Bool :=
  ('a' ≤ c && c ≤ 'z') || ('A' ≤ c && c ≤ 'Z')

/-- `std::isalnum`. -/
def cIsAlnum (c : Char) : Bool := cIsAlpha c || cIsDigit c

/-- The number scan of `Lexer::tokenize`: digits, plus at most one decimal
point; a second `.` terminates the number and is left unconsumed. Returns the
scanned characters and the unconsumed remainder. -/
def scanNumber (hasDecimal : Bool) : List Char → (List Char × List Char)
  | [] => ([], [])
  | c :: cs =>
      if cIsDigit c then
        let (n, rest) := scanNumber hasDecimal cs
        (c :: n, rest)
      else if c == '.' && !hasDecimal then
        let (n, rest) := scanNumber true cs
        (c :: n, rest)
      else ([], c :: cs)

/-- One escape sequence: the character after a backslash, expanded as the
lexer's `switch` does (unknown escapes keep the backslash). -/
def escChar (e : Char) : List Char :=
  if e == 'n' then ['\n']
  else if e == 't' then ['\t']
  else if e == 'r' then ['\r']
  else if e == '"' then ['"']
  else if e == '\\' then ['\\']
  else ['\\', e]

/-- The string-literal scan, from just after the opening quote up to (not
including) the closing quote or the end of input; also counts the raw
characters consumed, for the column counter. -/
def scanStringBody : List Char → (List Char × List Char × Nat)
  | [] => ([], [], 0)
  | c :: cs =>
      if c == '"' then ([], c :: cs, 0)
      else if c == '\\' then
        match cs with
        | [] => (['\\'], [], 1)
        | e :: cs' =>
            let (s, rest, k) := scanStringBody cs'
            (escChar e ++ s, rest, k + 2)
      else
        let (s, rest, k) := scanStringBody cs
        (c :: s, rest, k + 1)

/-- The identifier scan: alphanumerics and underscores. -/
def scanIdent : List Char → (List Char × List Char)
  | [] => ([], [])
  | c :: cs =>
      if cIsAlnum c || c == '_' then
        let (i, rest) := scanIdent cs
        (c :: i, rest)
      else ([], c :: cs)

/-- The `'`-comment skip: consume up to, but not including, the newline. -/
def skipComment : List Char → List Char
  | [] => []
  | c :: cs => if c == '\n' then c :: cs else skipComment cs

/-- The operator/delimiter `switch` of `Lexer::tokenize`. Returns the token
type, its text, and how many extra characters beyond the first were consumed;
an unrecognised character throws. -/
def opToken (c : Char) (cs : List Char) : Except String (TokenType × String × Nat) :=
  if c == '+' then .ok (.PLUS, "+", 0)
  else if c == '-' then .ok (.MINUS, "-", 0)
  else if c == '*' then .ok (.MULTIPLY, "*", 0)
  else if c == '/' then .ok (.DIVIDE, "/", 0)
  else if c == '%' then .ok (.MOD, "%", 0)
  else if c == '^' then .ok (.POWER, "^", 0)
  else if c == '(' then .ok (.LPAREN, "(", 0)
  else if c == ')' then .ok (.RPAREN, ")", 0)
  else if c == ',' then .ok (.COMMA, ",", 0)
  else if c == ';' then .ok (.SEMICOLON, ";", 0)
  else if c == ':' then .ok (.COLON, ":", 0)
  else if c == '=' then .ok (.ASSIGN, "=", 0)
  else if c == '<' then
    match cs with
    | '=' :: _ => .ok (.LESS_EQUAL, "<=", 1)
    | '>' :: _ => .ok (.NOT_EQUAL, "<>", 1)
    | _ => .ok (.LESS, "<", 0)
  else if c == '>' then
    match cs with
    | '=' :: _ => .ok (.GREATER_EQUAL, ">=", 1)
    | _ => .ok (.GREATER, ">", 0)
  else .error ("Unknown character: " ++ String.mk [c])

/-- The main loop of `Lexer::tokenize`. The fuel strictly decreases on every
iteration while at least one character is consumed, so `length + 1` fuel is
always enough. -/
def tokenizeGo : Nat → List Char → Int → Int → Except String (List Token)
  | 0, _, _, _ => .error "lexer fuel exhausted"
  | fuel + 1, input, line, col =>
    match input with
    | [] => .ok [⟨.EOF_TOKEN, "", line, col⟩]
    | c :: cs =>
      if cIsSpace c then
        if c == '\n' then tokenizeGo fuel cs (line + 1) 1
        else tokenizeGo fuel cs line (col + 1)
      else if c == '\'' then
        tokenizeGo fuel (skipComment (c :: cs)) line col
      else if cIsDigit c || c == '.' then
        let (numC, rest) := scanNumber false (c :: cs)
        match tokenizeGo fuel rest line (col + numC.length) with
        | .ok ts => .ok (⟨.NUMBER, String.mk numC, line, col⟩ :: ts)
        | .error e => .error e
      else if c == '"' then
        let (strC, rest1, k) := scanStringBody cs
        let (rest2, extra) :=
          match rest1 with
          | q :: qs => if q == '"' then (qs, 1) else (q :: qs, 0)
          | [] => (([] : List Char), 0)
        match tokenizeGo fuel rest2 line (col + 1 + k + extra) with
        | .ok ts => .ok (⟨.STRING, String.mk strC, line, col⟩ :: ts)
        | .error e => .error e
      else if cIsAlpha c || c == '_' then
        let (idC, rest) := scanIdent (c :: cs)
        let name := String.mk idC
        let ty := match List.lookup name keywordTable with
          | some t => t
          | none => TokenType.IDENTIFIER
        match tokenizeGo fuel rest line (col + idC.length) with
        | .ok ts => .ok (⟨ty, name, line, col⟩ :: ts)
        | .error e => .error e
      else
        match opToken c cs with
        | .error e => .error e
        | .ok (ty, s, take) =>
          match tokenizeGo fuel (cs.drop take) line (col + 1 + (take : Int)) with
          | .ok ts => .ok (⟨ty, s, line, col⟩ :: ts)
          | .error e => .error e

/-- `Lexer::tokenize`: source text to token stream, ending in `EOF_TOKEN`. -/
def Lexer.tokenize (input : String) : Except String (List Token) :=
  tokenizeGo (input.length + 1) input.data 1 1

end SBasic

namespace SBasic

/-! ## C++ standard-library conversions used by the interpreter -/

/-- `s.find('.') != npos` — decimal-point search. -/
def strContains (s : String) (c : Char) : Bool := s.data.contains c

/-- Numeric value of a digit list (most significant first). -/
def digitsVal (ds : List Char) : Nat :=
  ds.foldl (fun a c => a * 10 + (c.toNat - '0'.toNat)) 0

/-- `std::stoi`: skip leading whitespace, optional sign, then a nonempty run
of digits (parsing stops at the first non-digit); `none` models the
`invalid_argument` / `out_of_range` exceptions (no digits, or outside the
32-bit `int` range). -/
def cppStoi (s : String) : Option Int :=
  let cs := s.data.dropWhile (fun c => cIsSpace c)
  let (sgn, cs) : Int × List Char :=
    match cs with
    | '-' :: rest => (-1, rest)
    | '+' :: rest => (1, rest)
    | rest => (1, rest)
  let ds := cs.takeWhile (fun c => cIsDigit c)
  if ds.isEmpty then none
  else
    let v : Int := sgn * (digitsVal ds : Int)
    if v < -(2 ^ 31 : Int) ∨ (2 ^ 31 : Int) - 1 < v then none else some v

/-- `std::stod` on decimal input: whitespace, sign, digits with an optional
fractional part (at least one digit overall), optional decimal exponent.
`none` models `invalid_argument`/`out_of_range`. Hexadecimal floats and
`inf`/`nan` spellings are not modelled; no input in this development uses
them. -/
def cppStod (s : String) : Option ℚ :=
  let cs := s.data.dropWhile (fun c => cIsSpace c)
  let (sgn, cs) : ℚ × List Char :=
    match cs with
    | '-' :: rest => (-1, rest)
    | '+' :: rest => (1, rest)
    | rest => (1, rest)
  let intD := cs.takeWhile (fun c => cIsDigit c)
  let cs1 := cs.dropWhile (fun c => cIsDigit c)
  let (fracD, cs2) : List Char × List Char :=
    match cs1 with
    | '.' :: rest => (rest.takeWhile (fun c => cIsDigit c),
                      rest.dropWhile (fun c => cIsDigit c))
    | rest => ([], rest)
  if intD.isEmpty ∧ fracD.isEmpty then none
  else
    let mant : ℚ := sgn * ((digitsVal (intD ++ fracD) : ℚ) / (10 : ℚ) ^ fracD.length)
    let expPart : Int :=
      match cs2 with
      | 'e' :: rest | 'E' :: rest =>
        let (esgn, rest) : Int × List Char :=
          match rest with
          | '-' :: r => (-1, r)
          | '+' :: r => (1, r)
          | r => (1, r)
        let eds := rest.takeWhile (fun c => cIsDigit c)
        if eds.isEmpty then 0 else esgn * (digitsVal eds : Int)
      | _ => 0
    let q : ℚ := mant * (10 : ℚ) ^ expPart
    if (2 : ℚ) ^ 1024 ≤ (if q < 0 then -q else q) then none else some q

/-- Decimal exponent of a positive rational: the unique `e` with
`10 ^ e ≤ a < 10 ^ (e + 1)`. The auxiliary search for sub-unit values is
bounded by the digit count of the denominator. -/
def decExpUnder : Nat → ℚ → Nat → Nat
  | 0, _, k => k
  | fuel + 1, a, k => if 1 ≤ a * (10 : ℚ) ^ (k + 1) then k + 1 else decExpUnder fuel a (k + 1)

/-- Number of decimal digits of a natural number. -/
def decDigits (n : Nat) : Nat := (toString n).length

/-- Decimal exponent of a positive rational. -/
def decExp (a : ℚ) : Int :=
  if 1 ≤ a then (decDigits (qfloor a).toNat - 1 : Int)
  else -(decExpUnder (a.den + 2) a 0 : Int)

/-- Round half up, `⌊q + 1/2⌋`. -/
def qround (q : ℚ) : Int := qfloor (q + 1 / 2)

/-- Strip trailing `'0'` characters. -/
def stripZeros (s : String) : String :=
  String.mk (s.data.reverse.dropWhile (fun c => c == '0')).reverse

/-- Default `std::ostream` formatting of a `double` (`%g` with 6 significant
digits): fixed notation for decimal exponents in `[-4, 5]` with trailing
zeros removed, scientific notation otherwise. Exact for every value printed
in this development (small integral values); decimal rounding of a 7th
significant digit uses round-half-up where C++ rounds the underlying binary
value, a difference no theorem below exercises. -/
def cppDoubleToString (q : ℚ) : String :=
  if q = 0 then "0"
  else
    let sign := if q < 0 then "-" else ""
    let a := if q < 0 then -q else q
    let e0 := decExp a
    let n0 : Int := qround (a * (10 : ℚ) ^ (5 - e0))
    let (n, e) : Int × Int := if n0 = 10 ^ 6 then (10 ^ 5, e0 + 1) else (n0, e0)
    let s := toString n.toNat
    if -4 ≤ e ∧ e < 6 then
      if 0 ≤ e then
        let ip := s.take (e.toNat + 1)
        let fp := stripZeros (s.drop (e.toNat + 1))
        sign ++ ip ++ (if fp.isEmpty then "" else "." ++ fp)
      else
        sign ++ "0." ++ String.mk (List.replicate ((-e).toNat - 1) '0') ++ stripZeros s
    else
      let mant := stripZeros (s.drop 1)
      let mantS := s.take 1 ++ (if mant.isEmpty then "" else "." ++ mant)
      let eAbs := toString (if e < 0 then (-e).toNat else e.toNat)
      let ePad := if eAbs.length < 2 then "0" ++ eAbs else eAbs
      sign ++ mantS ++ "e" ++ (if e < 0 then "-" else "+") ++ ePad

/-- `oss << value` for each `Value` alternative: strings verbatim, ints in
decimal, doubles in default `ostream` format, bools as `1`/`0`. -/
def ostreamValue : Value → String
  | .vint n => toString n
  | .vfloat q => cppDoubleToString q
  | .vstr s => s
  | .vbool b => if b then "1" else "0"

/-! ## Built-in functions (interpreter/functions.cpp) -/

/-- `Functions::abs`. -/
def Functions.absB : List Value → Except String Value
  | [.vint n] => .ok (.vint n.natAbs)
  | [.vfloat q] => .ok (.vfloat |q|)
  | [_] => .ok (.vint 0)
  | _ => .error "ABS function requires exactly 1 argument"

/-- `Functions::sin`/`cos`/`tan`/`exp` share this shape: arity checked, the
transcendental result itself (irrational in general) lies outside the
rational model and is represented by `0.0`; no theorem below evaluates these
built-ins. -/
def Functions.transB (fname : String) : List Value → Except String Value
  | [.vint _] => .ok (.vfloat 0)
  | [.vfloat _] => .ok (.vfloat 0)
  | [_] => .ok (.vfloat 0)
  | _ => .error (fname ++ " function requires exactly 1 argument")

/-- `Functions::sqrt`: arity and negativity checks are exact; the square root
itself is represented by `0.0` (outside the rational model, unused below). -/
def Functions.sqrtB : List Value → Except String Value
  | [.vint n] => if n < 0 then .error "SQRT of negative number" else .ok (.vfloat 0)
  | [.vfloat q] => if q < 0 then .error "SQRT of negative number" else .ok (.vfloat 0)
  | [_] => .ok (.vfloat 0)
  | _ => .error "SQRT function requires exactly 1 argument"

/-- `Functions::log`: arity and domain checks are exact; the logarithm value
is represented by `0.0` (outside the rational model, unused below). -/
def Functions.logB : List Value → Except String Value
  | [.vint n] => if n ≤ 0 then .error "LOG of non-positive number" else .ok (.vfloat 0)
  | [.vfloat q] => if q ≤ 0 then .error "LOG of non-positive number" else .ok (.vfloat 0)
  | [_] => .ok (.vfloat 0)
  | _ => .error "LOG function requires exactly 1 argument"

/-- `Functions::len`: byte length of a string argument (ASCII in this
development), `0` for non-strings. -/
def Functions.lenB : List Value → Except String Value
  | [.vstr s] => .ok (.vint s.length)
  | [_] => .ok (.vint 0)
  | _ => .error "LEN function requires exactly 1 argument"

/-- `static_cast<int>` of the numeric visitors in MID/LEFT/RIGHT: ints as-is,
doubles truncated toward zero, everything else `0`. -/
def castInt : Value → Int
  | .vint n => n
  | .vfloat q => qtrunc q
  | _ => 0

/-- The string extraction of MID/LEFT/RIGHT: strings as-is, else `""`. -/
def castStr : Value → String
  | .vstr s => s
  | _ => ""

/-- `Functions::mid`. `start` is 1-based; a negative computed length wraps to
a huge `size_t` in the C++ `startPos + length`, making `endPos` the string
end — modelled by the explicit negative-length case. -/
def Functions.midB (args : List Value) : Except String Value :=
  if args.length < 2 ∨ 3 < args.length then
    .error "MID function requires 2 or 3 arguments"
  else
    let str := castStr (args.headD Value.defaultV)
    let start := castInt (args.getD 1 Value.defaultV)
    let len : Int := if args.length = 3 then castInt (args.getD 2 Value.defaultV)
      else (str.length : Int) - start + 1
    if start < 1 ∨ (str.length : Int) < start then .ok (.vstr "")
    else
      let startPos := (start - 1).toNat
      let endPos := if len < 0 then str.length
        else min (startPos + len.toNat) str.length
      .ok (.vstr ((str.drop startPos).take (endPos - startPos)))

/-- `Functions::left`. -/
def Functions.leftB : List Value → Except String Value
  | [sv, lv] =>
    let str := castStr sv
    let len := castInt lv
    if len ≤ 0 then .ok (.vstr "")
    else if (str.length : Int) ≤ len then .ok (.vstr str)
    else .ok (.vstr (str.take len.toNat))
  | _ => .error "LEFT function requires exactly 2 arguments"

/-- `Functions::right`. -/
def Functions.rightB : List Value → Except String Value
  | [sv, lv] =>
    let str := castStr sv
    let len := castInt lv
    if len ≤ 0 then .ok (.vstr "")
    else if (str.length : Int) ≤ len then .ok (.vstr str)
    else .ok (.vstr (str.drop (str.length - len.toNat)))
  | _ => .error "RIGHT function requires exactly 2 arguments"

/-- `Functions::val`: `stod` for strings containing a dot, `stoi` otherwise,
with the `catch (...)` fallback to `Value{0}`. -/
def Functions.valB : List Value → Except String Value
  | [v] =>
    let str := castStr v
    if strContains str '.' then
      match cppStod str with
      | some q => .ok (.vfloat q)
      | none => .ok (.vint 0)
    else
      match cppStoi str with
      | some n => .ok (.vint n)
      | none => .ok (.vint 0)
  | _ => .error "VAL function requires exactly 1 argument"

/-- `Functions::str`: strings pass through, other values are rendered with
`ostringstream`. -/
def Functions.strB : List Value → Except String Value
  | [.vstr s] => .ok (.vstr s)
  | [v] => .ok (.vstr (ostreamValue v))
  | _ => .error "STR function requires exactly 1 argument"

/-- `Functions::callBuiltin`: name dispatch; a default-constructed `Value{}`
(i.e. `int 0`, the variant's first alternative) signals "not a built-in". -/
def Functions.callBuiltin (name : String) (args : List Value) : Except String Value :=
  if name == "ABS" then Functions.absB args
  else if name == "SIN" then Functions.transB "SIN" args
  else if name == "COS" then Functions.transB "COS" args
  else if name == "TAN" then Functions.transB "TAN" args
  else if name == "SQRT" then Functions.sqrtB args
  else if name == "LOG" then Functions.logB args
  else if name == "EXP" then Functions.transB "EXP" args
  else if name == "LEN" then Functions.lenB args
  else if name == "MID" then Functions.midB args
  else if name == "LEFT" then Functions.leftB args
  else if name == "RIGHT" then Functions.rightB args
  else if name == "VAL" then Functions.valB args
  else if name == "STR" then Functions.strB args
  else .ok Value.defaultV

/-- `Functions::call`: the built-in result is taken only when its variant
index differs from `0` (the intended "empty" test — but index `0` is `int`,
so any built-in that returns an `int` falls through); then user-defined
functions (stubbed to `Value{0}` in the source), then, for zero-argument
calls, a variable of the same name; otherwise the call throws. -/
def Functions.call (funcs : List (String × String)) (name : String)
    (args : List Value) (vars : Vars) : Except String Value := do
  let builtinResult ← Functions.callBuiltin name args
  if builtinResult.index ≠ 0 then
    return builtinResult
  else if (List.lookup name funcs).isSome then
    return Value.vint 0
  else if args.length = 0 then
    if Variables.existsVar name vars then
      return Variables.get name vars
    else
      .error ("Symbol '" ++ name ++ "' not defined")
  else
    .error ("Function '" ++ name ++ "' not defined")

end SBasic

namespace SBasic

/-! ## AST (interpreter/parser.h) and the tree-walking evaluator -/

/-- The AST node variants. `nullNode` models a null `ASTNode*` child (the
parser produces them on statement-level syntax errors); `Runtime::execute`
returns `Value{}` for them. -/
inductive AST where
  | nullNode
  | program (statements : List AST)
  | letStmt (variableName : String) (value : AST)
  | ifStmt (condition thenStatement : AST) (elseStatement : Option AST)
  | forStmt (variableName : String) (startValue endValue : AST)
      (stepValue : Option AST) (body : AST)
  | nextStmt
  | whileStmt (condition body : AST)
  | printStmt (expressions : List AST)
  | inputStmt (prompt variableName : String)
  | funcCall (functionName : String) (arguments : List AST)
  | binaryExpr (op : TokenType) (left right : AST)
  | unaryExpr (op : TokenType) (operand : AST)
  | literal (value : Value)
  | ident (name : String)

/-- One observable output: a direct `std::cout` write, or a DAP output event.
`Runtime::executePrintStatement` calls `sendOutputEvent(oss.str(), "stdout")`
whose parameters are declared `(category, output)` — so the printed text
lands in the event's `category` field and the literal `"stdout"` in its
`output` field; the model preserves that argument order. -/
inductive OutputRec where
  | console (text : String)
  | dapOutput (category output : String)
  deriving DecidableEq, Repr

/-- The mutable context a statement executes in: the variable store and the
user-function table (the `Variables*`/`Functions*` arguments), whether a DAP
server is attached and running (`g_dapServer && g_dapServer->isRunning()`),
the output emitted so far, and the pending `std::cin` lines. -/
structure RState where
  vars : Vars
  funcs : List (String × String)
  dapActive : Bool
  outputs : List OutputRec
  inputs : List String
  deriving DecidableEq, Repr

/-- The separator logic of `executePrintStatement`: a single space between
adjacent fields (`if (i < size - 1) oss << " "`). -/
def joinSpace : List String → String
  | [] => ""
  | [s] => s
  | s :: rest => s ++ " " ++ joinSpace rest

/-- The `while (true)` loop of `Runtime::executeForStatement`: re-read the
loop variable, stop once it passes `endVal` in the direction of `stepVal`,
otherwise run the body and store `currentVal + stepVal` (as a double). The
body is the evaluator applied to the body node; fuel bounds the iteration
count (a zero step never terminates in the source). -/
def forLoop (fuel : Nat) (runBody : RState → Except String (Value × RState))
    (name : String) (endV stepV : ℚ) (st : RState) : Except String RState :=
  match fuel with
  | 0 => .error "out of fuel"
  | fuel + 1 =>
    let currentV := toDouble0 (Variables.get name st.vars)
    if stepV > 0 ∧ currentV > endV then .ok st
    else if stepV < 0 ∧ currentV < endV then .ok st
    else do
      let (_, st') ← runBody st
      let st'' := { st' with vars := Variables.set name (.vfloat (currentV + stepV)) st'.vars }
      forLoop fuel runBody name endV stepV st''

/-- The value-accumulation step shared by `executePrintStatement` and
`executeFunctionCall`: evaluate the next expression, thread the state, append
the value. -/
def accumStep (ev : AST → RState → Except String (Value × RState)) :
    (List Value × RState) → AST → Except String (List Value × RState) :=
  fun acc e => do
    let (v, st') ← ev e acc.2
    .ok (acc.1 ++ [v], st')

/-- The loop of `Runtime::executeWhileStatement`. -/
def whileLoop (fuel : Nat) (runCond runBody : RState → Except String (Value × RState))
    (st : RState) : Except String RState :=
  match fuel with
  | 0 => .error "out of fuel"
  | fuel + 1 => do
    let (c, st1) ← runCond st
    if Runtime.isTruthy c then do
      let (_, st2) ← runBody st1
      whileLoop fuel runCond runBody st2
    else .ok st1

/-- `Runtime::execute`, the tree-walking evaluator. Fuel strictly decreases on
every recursive call (the C++ recursion is bounded only by AST depth and loop
iteration counts). All other behaviour mirrors the `switch` dispatch and the
per-node `execute*` methods. -/
def Runtime.exec : Nat → AST → RState → Except String (Value × RState)
  | 0, _, _ => .error "out of fuel"
  | fuel + 1, node, st =>
    match node with
    | .nullNode => .ok (Value.defaultV, st)
    | .nextStmt => .ok (Value.defaultV, st)
    | .program stmts =>
        stmts.foldlM (fun acc s => Runtime.exec fuel s acc.2) (Value.defaultV, st)
    | .letStmt name value => do
        let (v, st') ← Runtime.exec fuel value st
        .ok (v, { st' with vars := Variables.set name v st'.vars })
    | .ifStmt cond thenS elseS => do
        let (c, st') ← Runtime.exec fuel cond st
        if Runtime.isTruthy c then Runtime.exec fuel thenS st'
        else
          match elseS with
          | some e => Runtime.exec fuel e st'
          | none => .ok (Value.defaultV, st')
    | .forStmt name startE endE stepE body => do
        let (startV, st1) ← Runtime.exec fuel startE st
        let (endV, st2) ← Runtime.exec fuel endE st1
        let (stepV, st3) ←
          match stepE with
          | some se => Runtime.exec fuel se st2
          | none => .ok (Value.vint 1, st2)
        let startQ := toDouble0 startV
        let endQ := toDouble0 endV
        let stepQ := toDouble1 stepV
        let st4 := { st3 with vars := Variables.set name (.vfloat startQ) st3.vars }
        let st5 ← forLoop fuel (Runtime.exec fuel body) name endQ stepQ st4
        .ok (Value.defaultV, st5)
    | .whileStmt cond body => do
        let st' ← whileLoop fuel (Runtime.exec fuel cond) (Runtime.exec fuel body) st
        .ok (Value.defaultV, st')
    | .printStmt exprs => do
        let (vals, st') ← exprs.foldlM (accumStep (Runtime.exec fuel))
          (([] : List Value), st)
        let line := joinSpace (vals.map ostreamValue) ++ "\n"
        let out := if st'.dapActive then OutputRec.dapOutput line "stdout"
          else OutputRec.console line
        .ok (Value.defaultV, { st' with outputs := st'.outputs ++ [out] })
    | .inputStmt prompt name =>
        let st1 := if prompt.isEmpty then st
          else { st with outputs := st.outputs ++ [.console prompt] }
        let inputLine := st1.inputs.headD ""
        let st2 := { st1 with inputs := st1.inputs.tail }
        let v := if strContains inputLine '.' then
            match cppStod inputLine with
            | some q => Value.vfloat q
            | none => Value.vstr inputLine
          else
            match cppStoi inputLine with
            | some n => Value.vint n
            | none => Value.vstr inputLine
        .ok (Value.defaultV, { st2 with vars := Variables.set name v st2.vars })
    | .funcCall fname args => do
        let (vals, st') ← args.foldlM (accumStep (Runtime.exec fuel))
          (([] : List Value), st)
        let v ← Functions.call st'.funcs fname vals st'.vars
        .ok (v, st')
    | .binaryExpr op l r => do
        let (lv, st1) ← Runtime.exec fuel l st
        let (rv, st2) ← Runtime.exec fuel r st1
        match op with
        | .PLUS => .ok (Runtime.add lv rv, st2)
        | .MINUS => .ok (Runtime.subtract lv rv, st2)
        | .MULTIPLY => .ok (Runtime.multiply lv rv, st2)
        | .DIVIDE => do
            let v ← Runtime.divide lv rv
            .ok (v, st2)
        | .MOD => do
            let v ← Runtime.modulo lv rv
            .ok (v, st2)
        | .POWER => .ok (Runtime.power lv rv, st2)
        | .EQUAL => .ok (.vbool (Runtime.isEqual lv rv), st2)
        | .NOT_EQUAL => .ok (.vbool (!Runtime.isEqual lv rv), st2)
        | .LESS => .ok (.vbool (Runtime.isLessThan lv rv), st2)
        | .LESS_EQUAL =>
            .ok (.vbool (Runtime.isLessThan lv rv || Runtime.isEqual lv rv), st2)
        | .GREATER => .ok (.vbool (Runtime.isGreaterThan lv rv), st2)
        | .GREATER_EQUAL =>
            .ok (.vbool (Runtime.isGreaterThan lv rv || Runtime.isEqual lv rv), st2)
        | _ => .ok (Value.defaultV, st2)
    | .unaryExpr op operand => do
        let (v, st') ← Runtime.exec fuel operand st
        match op with
        | .MINUS =>
            match v with
            | .vint n => .ok (Value.vint (-n), st')
            | .vfloat q => .ok (Value.vfloat (-q), st')
            | _ => .ok (Value.vint 0, st')
        | .NOT => .ok (Value.vbool (!Runtime.isTruthy v), st')
        | _ => .ok (v, st')
    | .literal v => .ok (v, st)
    | .ident name => .ok (Variables.get name st.vars, st)

end SBasic

namespace SBasic

/-! ## Parser (interpreter/parser.cpp)

The C++ parser is a set of mutually recursive methods over a token vector and
a cursor, throwing on malformed input; `parseStatement` catches, resynchronises
and returns a null node. Here the whole family is one fueled dispatcher
`parseGo` over a mode tag; errors carry the parser state at the throw site so
that the catch can resynchronise from it. -/

/-- Parser cursor state (`tokens_`, `current_`). -/
structure PState where
  tokens : List Token
  current : Nat
  deriving Repr

/-- The token used when the cursor is out of range (the C++ code only reads
in range; an end-of-input token is the benign reading). -/
def eofTok : Token := ⟨.EOF_TOKEN, "", 0, 0⟩

/-- `Parser::current()`. -/
def PState.currentTok (st : PState) : Token :=
  (st.tokens.get? st.current).getD eofTok

/-- `Parser::last()`: the previous token, or the current one at position 0. -/
def PState.lastTok (st : PState) : Token :=
  if 0 < st.current then (st.tokens.get? (st.current - 1)).getD eofTok
  else st.currentTok

/-- `Parser::isAtEnd()`. -/
def PState.isAtEnd (st : PState) : Bool :=
  st.tokens.length ≤ st.current || st.currentTok.type == .EOF_TOKEN

/-- `Parser::check`. -/
def PState.check (t : TokenType) (st : PState) : Bool :=
  !st.isAtEnd && st.currentTok.type == t

/-- `Parser::advance`. -/
def PState.advance (st : PState) : PState :=
  if st.isAtEnd then st else { st with current := st.current + 1 }

/-- `Parser::match`: consume the current token if it has the wanted type. -/
def PState.matchT (t : TokenType) (st : PState) : Bool × PState :=
  if st.check t then (true, st.advance) else (false, st)

/-- A `match(A) || match(B) || ...` chain: the first matching type consumes. -/
def matchAny (ts : List TokenType) (st : PState) : Bool × PState :=
  match ts with
  | [] => (false, st)
  | t :: rest =>
    match st.matchT t with
    | (true, st') => (true, st')
    | (false, _) => matchAny rest st

/-- `Parser::consume`: advance past an expected token or throw. -/
def consumeT (t : TokenType) (msg : String) (st : PState) :
    Except (String × PState) PState :=
  if st.check t then .ok st.advance else .error (msg, st)

/-- The loop of `Parser::synchronize` (after its initial `advance`). -/
def synchronizeGo : Nat → PState → PState
  | 0, st => st
  | fuel + 1, st =>
    if st.isAtEnd then st
    else if st.currentTok.type == .SEMICOLON then st.advance
    else
      match st.currentTok.type with
      | .LET | .IF | .FOR | .WHILE | .PRINT | .INPUT => st
      | _ => synchronizeGo fuel st.advance

/-- `Parser::synchronize`. -/
def synchronize (st : PState) : PState :=
  synchronizeGo (st.tokens.length + 1) st.advance

/-- Which parser method `parseGo` is executing; loop modes carry their
accumulated left operand or list. -/
inductive PM where
  | stmt | letS | ifS | forS | whileS | inputS | fcall
  | printS (acc : List AST)
  | fcallArgs (fname : String) (acc : List AST)
  | expr | term | factor | primary
  | exprLoop (left : AST)
  | termLoop (left : AST)
  | factorLoop (left : AST)
  | programLoop (acc : List AST)

/-- The whole recursive-descent parser, one fueled dispatcher. Faithful
details worth noting: after a successful `match` the cursor is already past
the matched token, and the source then reads `current()` — so binary
operators record the type of the token *after* the operator, the
number-literal code checks the *next* token for a decimal point, and the
`IDENTIFIER =` assignment records the *value token's* text as the variable
name. `parsePrimary` has no production for unary minus. -/
def parseGo : Nat → PM → PState → Except (String × PState) (Option AST × PState)
  | 0, _, st => .error ("parser fuel exhausted", st)
  | fuel + 1, m, st =>
    match m with
    | .stmt =>
      if st.isAtEnd then .ok (none, st)
      else
        let attempt : Except (String × PState) (Option AST × PState) :=
          match st.matchT .LET with
          | (true, st') => parseGo fuel .letS st'
          | (false, _) =>
          match st.matchT .IF with
          | (true, st') => parseGo fuel .ifS st'
          | (false, _) =>
          match st.matchT .FOR with
          | (true, st') => parseGo fuel .forS st'
          | (false, _) =>
          match st.matchT .NEXT with
          | (true, st') => .ok (some .nextStmt, st')
          | (false, _) =>
          match st.matchT .WHILE with
          | (true, st') => parseGo fuel .whileS st'
          | (false, _) =>
          match st.matchT .PRINT with
          | (true, st') => parseGo fuel (.printS []) st'
          | (false, _) =>
          match st.matchT .INPUT with
          | (true, st') => parseGo fuel .inputS st'
          | (false, _) =>
          if st.check .IDENTIFIER then
            let st1 := st.advance
            match st1.matchT .ASSIGN with
            | (true, st2) => do
                let (v, st3) ← parseGo fuel .expr st2
                .ok (some (.letStmt st2.currentTok.value (v.getD .nullNode)), st3)
            | (false, _) =>
                parseGo fuel .fcall { st1 with current := st1.current - 1 }
          else
            parseGo fuel .expr st
        match attempt with
        | .ok r => .ok r
        | .error (_, stE) => .ok (none, synchronize stE)
    | .letS =>
      if st.check .IDENTIFIER then
        let name := st.currentTok.value
        let st1 := st.advance
        match st1.matchT .ASSIGN with
        | (true, st2) => do
            let (v, st3) ← parseGo fuel .expr st2
            .ok (some (.letStmt name (v.getD .nullNode)), st3)
        | (false, st2) => .error ("Expected '=' after variable name", st2)
      else .error ("Expected identifier after LET", st)
    | .ifS => do
      let (cond, st1) ← parseGo fuel .expr st
      match st1.matchT .THEN with
      | (false, st2) => .error ("Expected THEN after IF condition", st2)
      | (true, st2) => do
        let (thenS, st3) ← parseGo fuel .stmt st2
        match st3.matchT .ELSE with
        | (true, st4) => do
            let (elseS, st5) ← parseGo fuel .stmt st4
            .ok (some (.ifStmt (cond.getD .nullNode) (thenS.getD .nullNode)
              (some (elseS.getD .nullNode))), st5)
        | (false, st4) =>
            .ok (some (.ifStmt (cond.getD .nullNode) (thenS.getD .nullNode) none), st4)
    | .forS =>
      if st.check .IDENTIFIER then
        let name := st.currentTok.value
        let st1 := st.advance
        match st1.matchT .ASSIGN with
        | (false, st2) => .error ("Expected '=' after FOR variable", st2)
        | (true, st2) => do
          let (startV, st3) ← parseGo fuel .expr st2
          match st3.matchT .TO with
          | (false, st4) => .error ("Expected TO in FOR statement", st4)
          | (true, st4) => do
            let (endV, st5) ← parseGo fuel .expr st4
            match st5.matchT .STEP with
            | (true, st6) => do
                let (stepV, st7) ← parseGo fuel .expr st6
                let (body, st8) ← parseGo fuel .stmt st7
                .ok (some (.forStmt name (startV.getD .nullNode) (endV.getD .nullNode)
                  (some (stepV.getD .nullNode)) (body.getD .nullNode)), st8)
            | (false, st6) => do
                let (body, st7) ← parseGo fuel .stmt st6
                .ok (some (.forStmt name (startV.getD .nullNode) (endV.getD .nullNode)
                  none (body.getD .nullNode)), st7)
      else .error ("Expected identifier after FOR", st)
    | .whileS => do
      let (cond, st1) ← parseGo fuel .expr st
      let (body, st2) ← parseGo fuel .stmt st1
      .ok (some (.whileStmt (cond.getD .nullNode) (body.getD .nullNode)), st2)
    | .printS acc =>
      if !st.isAtEnd && !st.check .SEMICOLON && !st.check .COLON then do
        let (e, st1) ← parseGo fuel .expr st
        let (_, st2) := st1.matchT .COMMA
        parseGo fuel (.printS (acc ++ [e.getD .nullNode])) st2
      else .ok (some (.printStmt acc), st)
    | .inputS => do
      let (prompt, st1) ←
        if st.check .STRING then
          let p := st.currentTok.value
          let stA := st.advance
          match stA.matchT .COMMA with
          | (true, stB) => Except.ok (p, stB)
          | (false, stB) => Except.error ("Expected comma after INPUT prompt", stB)
        else Except.ok ("", st)
      if st1.check .IDENTIFIER then
        let name := st1.currentTok.value
        .ok (some (.inputStmt prompt name), st1.advance)
      else .error ("Expected variable name in INPUT statement", st1)
    | .fcall =>
      if st.check .IDENTIFIER then
        let fname := st.currentTok.value
        let st1 := st.advance
        match st1.matchT .LPAREN with
        | (true, st2) => parseGo fuel (.fcallArgs fname []) st2
        | (false, st2) => .ok (some (.funcCall fname []), st2)
      else .error ("Expected function name", st)
    | .fcallArgs fname acc =>
      if !st.check .RPAREN && !st.isAtEnd then do
        let (a, st1) ← parseGo fuel .expr st
        match st1.matchT .COMMA with
        | (true, st2) => parseGo fuel (.fcallArgs fname (acc ++ [a.getD .nullNode])) st2
        | (false, st2) => do
            let st3 ← consumeT .RPAREN "Expected ')' after function arguments" st2
            .ok (some (.funcCall fname (acc ++ [a.getD .nullNode])), st3)
      else do
        let st1 ← consumeT .RPAREN "Expected ')' after function arguments" st
        .ok (some (.funcCall fname acc), st1)
    | .expr => do
      let (left, st1) ← parseGo fuel .term st
      parseGo fuel (.exprLoop (left.getD .nullNode)) st1
    | .exprLoop left =>
      match matchAny [.PLUS, .MINUS, .EQUAL, .NOT_EQUAL, .LESS, .LESS_EQUAL,
        .GREATER, .GREATER_EQUAL] st with
      | (true, st1) => do
          let op := st1.currentTok.type
          let (right, st2) ← parseGo fuel .term st1
          parseGo fuel (.exprLoop (.binaryExpr op left (right.getD .nullNode))) st2
      | (false, st1) => .ok (some left, st1)
    | .term => do
      let (left, st1) ← parseGo fuel .factor st
      parseGo fuel (.termLoop (left.getD .nullNode)) st1
    | .termLoop left =>
      match matchAny [.MULTIPLY, .DIVIDE, .MOD] st with
      | (true, st1) => do
          let op := st1.currentTok.type
          let (right, st2) ← parseGo fuel .factor st1
          parseGo fuel (.termLoop (.binaryExpr op left (right.getD .nullNode))) st2
      | (false, st1) => .ok (some left, st1)
    | .factor => do
      let (left, st1) ← parseGo fuel .primary st
      parseGo fuel (.factorLoop (left.getD .nullNode)) st1
    | .factorLoop left =>
      match st.matchT .POWER with
      | (true, st1) => do
          let (right, st2) ← parseGo fuel .primary st1
          parseGo fuel (.factorLoop (.binaryExpr .POWER left (right.getD .nullNode))) st2
      | (false, st1) => .ok (some left, st1)
    | .primary =>
      match st.matchT .NUMBER with
      | (true, st1) =>
        let lastV := st1.lastTok.value
        let v := if strContains st1.currentTok.value '.' then
            match cppStod lastV with
            | some q => Value.vfloat q
            | none => Value.vint 0
          else
            match cppStoi lastV with
            | some n => Value.vint n
            | none => Value.vint 0
        .ok (some (.literal v), st1)
      | (false, _) =>
      match st.matchT .STRING with
      | (true, st1) => .ok (some (.literal (.vstr st1.lastTok.value)), st1)
      | (false, _) =>
      match st.matchT .IDENTIFIER with
      | (true, st1) => .ok (some (.ident st1.lastTok.value), st1)
      | (false, _) =>
      match st.matchT .LPAREN with
      | (true, st1) => do
          let (e, st2) ← parseGo fuel .expr st1
          let st3 ← consumeT .RPAREN "Expected ')' after expression" st2
          .ok (e, st3)
      | (false, _) => .error ("Unexpected token: " ++ st.currentTok.value, st)
    | .programLoop acc =>
      if !st.isAtEnd then do
        let (sOpt, st1) ← parseGo fuel .stmt st
        let acc' := match sOpt with
          | some s => acc ++ [s]
          | none => acc
        parseGo fuel (.programLoop acc') st1
      else .ok (some (.program acc), st)

/-- Fuel that dwarfs the recursion depth of every parse in this development. -/
def parserFuel : Nat := 100000

/-- `Parser::parse` — a whole program; never null in the source
(`parseProgram` always allocates the program node). -/
def Parser.parse (tokens : List Token) : Option AST :=
  match parseGo parserFuel (.programLoop []) ⟨tokens, 0⟩ with
  | .ok (o, _) => o
  | .error _ => none

/-- `Parser::parseLine` — a single statement; null on a caught syntax error. -/
def Parser.parseLine (tokens : List Token) : Option AST :=
  match parseGo parserFuel .stmt ⟨tokens, 0⟩ with
  | .ok (o, _) => o
  | .error _ => none

end SBasic

namespace SBasic

/-! ## Program session (`BasicInterpreter`, interpreter/basic_interpreter.cpp) -/

/-- The `BasicInterpreter` member state. -/
structure InterpState where
  vars : Vars
  funcs : List (String × String)
  source : String
  lines : List String
  currentLine : Int
  running : Bool
  debugging : Bool
  paused : Bool
  breakpoints : List Int
  lastError : String
  deriving DecidableEq, Repr

/-- The constructor state of `BasicInterpreter`. -/
def InterpState.init : InterpState :=
  ⟨([] : List (String × Value)), [], "", [], 0, false, false, false, [], ""⟩

/-- The `std::getline` split of `loadProgram`: lines without their
terminators; a trailing newline does not produce an extra empty line. -/
def splitLines (source : String) : List String :=
  if source.isEmpty then []
  else
    let parts := source.splitOn "\n"
    if source.endsWith "\n" then parts.dropLast else parts

/-- `BasicInterpreter::loadProgram`: record source and line list, reset the
cursor and error, then tokenize+parse for validity (a lexical error is caught
into `lastError_`; `Parser::parse` never returns null). -/
def BasicInterpreter.loadProgram (it : InterpState) (source : String) :
    InterpState × Bool :=
  let it1 := { it with
    source := source,
    lines := splitLines source,
    currentLine := 0,
    lastError := "" }
  match Lexer.tokenize source with
  | .error e => ({ it1 with lastError := e }, false)
  | .ok toks =>
      match Parser.parse toks with
      | some _ => (it1, true)
      | none => ({ it1 with lastError := "Failed to parse program" }, false)

/-- `BasicInterpreter::pause`. -/
def BasicInterpreter.pause (it : InterpState) : InterpState :=
  { it with paused := true }

/-- Fuel passed to the evaluator for expression evaluation; ample for every
program in this development. -/
def execFuel : Nat := 1000

/-- `BasicInterpreter::evaluateExpression`: tokenize, `parseLine`, execute
against the live store. `dapActive` stands for
`g_dapServer && g_dapServer->isRunning()` and `stdinLines` for `std::cin`.
On an execution error the partial store mutations made before the throw are
not preserved here (the C++ store is mutated in place); no theorem below
observes the store after a failed evaluation. -/
def BasicInterpreter.evaluateExpression (it : InterpState) (dapActive : Bool)
    (stdinLines : List String) (expr : String) :
    Except String (Value × InterpState × List OutputRec) := do
  let toks ← Lexer.tokenize expr
  if toks.isEmpty then .error "Empty or invalid expression"
  else
    match Parser.parseLine toks with
    | none => .error "Failed to parse expression"
    | some ast => do
        let st0 : RState := ⟨it.vars, it.funcs, dapActive, [], stdinLines⟩
        let (v, st') ← Runtime.exec execFuel ast st0
        .ok (v, { it with vars := st'.vars }, st'.outputs)

/-- Modelled from the spec: `BasicInterpreter::cleanup` is called by the
disconnect handler but its definition is absent from the sources (it is not
declared in the available `basic_interpreter.h` nor defined in any cpp file).
The spec says the program session is "destroyed/cleared on disconnect" and
that disconnect "fully resets variable store ... and current line to entry
state", so `cleanup` restores the constructor state. -/
def BasicInterpreter.cleanup (_it : InterpState) : InterpState :=
  InterpState.init

/-- Modelled from the spec: `basic::valueToString` is declared in the runtime
header but its definition is not among the sources. The spec reports
variables and evaluation results as the stringified value; rendered as the
output stream renders values. -/
def valueToString (v : Value) : String := ostreamValue v

/-! ## DAP protocol engine (dap/dap_server.cpp) -/

/-- A minimal model of `nlohmann::json` documents. -/
inductive Json where
  | null
  | jbool (b : Bool)
  | jint (n : Int)
  | jstr (s : String)
  | jarr (elems : List Json)
  | jobj (fields : List (String × Json))

/-- `json::contains`. -/
def Json.containsKey (j : Json) (k : String) : Bool :=
  match j with
  | .jobj fields => (fields.lookup k).isSome
  | _ => false

/-- `j[k]` — field access, `null` when absent. -/
def Json.get (j : Json) (k : String) : Json :=
  match j with
  | .jobj fields => (fields.lookup k).getD .null
  | _ => .null

/-- `json::is_string`. -/
def Json.isString : Json → Bool
  | .jstr _ => true
  | _ => false

/-- `json::is_object`. -/
def Json.isObject : Json → Bool
  | .jobj _ => true
  | _ => false

/-- `json::is_null`. -/
def Json.isNull : Json → Bool
  | .null => true
  | _ => false

/-- Implicit conversion to `std::string` (guarded by `is_string` at every
call site exercised below). -/
def Json.asString : Json → String
  | .jstr s => s
  | _ => ""

/-- Implicit conversion to `int`. -/
def Json.asInt : Json → Int
  | .jint n => n
  | _ => 0

/-- Array elements. -/
def Json.asArr : Json → List Json
  | .jarr xs => xs
  | _ => []

/-- `enum class DAPMessageType`. -/
inductive DAPMessageType where
  | REQUEST | RESPONSE | EVENT
  deriving DecidableEq, Repr

/-- `struct DAPMessage`. -/
structure DAPMessage where
  type : DAPMessageType
  command : String := ""
  arguments : Json := .null
  id : Json := .null
  result : Json := .null
  error : Json := .null
  event : String := ""
  body : Json := .null

/-- A message as `DAPServer::sendMessage`/`sendEvent` put it on the wire:
either a response frame (`request_seq`, optional `command`, `success` and
either a `body` or an error `message`), or an event frame. -/
inductive WireMsg where
  | response (requestSeq : Json) (command : Option String) (success : Bool)
      (message : Json) (body : Json)
  | event (name : String) (body : Json)

/-- Is a wire message a response frame? -/
def WireMsg.isResponse : WireMsg → Bool
  | .response _ _ _ _ _ => true
  | .event _ _ => false

/-- `DAPServer::createResponse`. -/
def createResponse (id result : Json) : DAPMessage :=
  { type := .RESPONSE, id := id, result := result }

/-- `DAPServer::createErrorResponse`. -/
def createErrorResponse (id : Json) (code : Int) (message : String) : DAPMessage :=
  { type := .RESPONSE, id := id,
    error := .jobj [("code", .jint code), ("message", .jstr message)] }

/-- `DAPServer::sendMessage` applied to a response message: `request_seq`
carries the message id, the `command` field is included only when non-empty,
`success` is true exactly when the error payload is null, in which case the
result becomes the body. -/
def wireOfResponse (m : DAPMessage) : WireMsg :=
  .response m.id (if m.command.isEmpty then none else some m.command)
    m.error.isNull m.error m.result

/-- The `DAPServer` member state (sockets themselves are not modelled; the
flags that control them are). `files` stands for the external file-reading
collaborator behind `readFileContent`. -/
structure DAPState where
  running : Bool := false
  debugging : Bool := false
  paused : Bool := false
  currentThread : Int := 1
  currentLine : Int := 0
  currentSource : String := ""
  sources : List (String × String) := []
  breakpoints : List (String × List Int) := []
  breakpointMap : List (Int × (String × Int)) := []
  nextBreakpointId : Int := 1
  stepMode : Bool := false
  runTillStop : Bool := false
  checkConnection : Bool := false
  useNetwork : Bool := false
  enableLogging : Bool := false
  port : Int := 4711
  interp : InterpState := InterpState.init
  files : List (String × String) := []

/-- Insert into / update an association list (`std::map` assignment). -/
def assocSet (k : String) (v : String) : List (String × String) → List (String × String)
  | [] => [(k, v)]
  | (k', v') :: rest =>
      if k' = k then (k, v) :: rest else (k', v') :: assocSet k v rest

/-- `std::set<int>::insert`. -/
def insSorted (n : Int) : List Int → List Int
  | [] => [n]
  | m :: rest =>
      if n < m then n :: m :: rest
      else if n = m then m :: rest
      else m :: insSorted n rest

/-- `breakpoints_[source].insert(line)`. -/
def bpInsert (source : String) (line : Int) :
    List (String × List Int) → List (String × List Int)
  | [] => [(source, [line])]
  | (s, ls) :: rest =>
      if s = source then (s, insSorted line ls) :: rest
      else (s, ls) :: bpInsert source line rest

/-- `DAPServer::readFileContent` — the external read-file collaborator;
unreadable paths yield `""`. -/
def readFileContent (files : List (String × String)) (path : String) : String :=
  (files.lookup path).getD ""

/-- `DAPServer::addSource`. -/
def DAPServer.addSource (st : DAPState) (path content : String) : DAPState :=
  { st with sources := assocSet path content st.sources, currentSource := path }

/-- `DAPServer::getSource`. -/
def DAPServer.getSource (st : DAPState) (path : String) : String :=
  (st.sources.lookup path).getD ""

/-- The body of `sendStoppedEvent`. -/
def stoppedBody (reason : String) (threadId line : Int) : Json :=
  .jobj [("reason", .jstr reason), ("threadId", .jint threadId),
         ("allThreadsStopped", .jbool true), ("line", .jint line)]

/-- What a request handler does: transform the server state, emit events —
every handler in the source emits only via `sendEvent`, so events are
(name, body) pairs — and return the result payload for the response. -/
def HandlerFn : Type :=
  DAPState → Json → DAPState × List (String × Json) × Json

/-- The program-selection branches of `DAPServer::handleLaunch`: a string
`program` path read through the file collaborator, an inline
`{path, content}` object, or a `programPath` — each registering the source
text under its path when non-empty. -/
def DAPServer.launchLoadSource (st : DAPState) (args : Json) : DAPState :=
  if args.containsKey "program" && (args.get "program").isString then
    let programPath := (args.get "program").asString
    let content := readFileContent st.files programPath
    if content ≠ "" then DAPServer.addSource st programPath content else st
  else if args.containsKey "program" && (args.get "program").isObject then
    let prog := args.get "program"
    if prog.containsKey "path" then
      let programPath := (prog.get "path").asString
      let content := if prog.containsKey "content" then (prog.get "content").asString
        else readFileContent st.files programPath
      if content ≠ "" then DAPServer.addSource st programPath content else st
    else st
  else if args.containsKey "programPath" && (args.get "programPath").isString then
    let programPath := (args.get "programPath").asString
    let content := readFileContent st.files programPath
    if content ≠ "" then DAPServer.addSource st programPath content else st
  else st

/-- The interpreter hand-off of `handleLaunch`: when the current source has
text, load it into the interpreter and pause at entry. -/
def DAPServer.launchStartInterp (st : DAPState) : DAPState :=
  let content := DAPServer.getSource st st.currentSource
  if content ≠ "" then
    let (it, _) := BasicInterpreter.loadProgram st.interp content
    { st with interp := BasicInterpreter.pause it }
  else st

/-- `DAPServer::handleLaunch`: set up debugging, load the program from a
string path (via the file collaborator), an inline `{path, content}` object,
or a `programPath`, hand it to the interpreter paused at entry, and emit the
initialized/process/stopped(`entry`) events. -/
def DAPServer.handleLaunch (st : DAPState) (args : Json) :
    DAPState × List (String × Json) × Json :=
  let st := { st with debugging := true, currentLine := 0 }
  let st := DAPServer.launchLoadSource st args
  let st := DAPServer.launchStartInterp st
  (st,
   [("initialized", .jobj []),
    ("process", .jobj [("name", .jstr "BASIC Interpreter"),
      ("systemProcessId", .jint 1), ("isLocalProcess", .jbool true),
      ("startMethod", .jstr "launch")]),
    ("stopped", stoppedBody "entry" st.currentThread st.currentLine)],
   .jobj [])

/-- `DAPServer::handleDisconnect`: clear the debugging/paused flags, erase
the current source's text, reset the line cursor and source name, and have
the interpreter clean up. The `breakpoints_` map is not touched. -/
def DAPServer.handleDisconnect (st : DAPState) (_args : Json) :
    DAPState × List (String × Json) × Json :=
  let st := { st with debugging := false, paused := false }
  let st := { st with sources := st.sources.filter (fun p => p.1 ≠ st.currentSource) }
  let st := { st with currentLine := 0, currentSource := "" }
  let st := { st with interp := BasicInterpreter.cleanup st.interp }
  (st, [], .jobj [])

/-- `DAPServer::handleSetBreakpoints`: record each requested line under the
source path (both in the per-source set and the id-keyed map, burning two
breakpoint ids per entry as the source does) and answer with verified
breakpoints. -/
def DAPServer.handleSetBreakpoints (st : DAPState) (args : Json) :
    DAPState × List (String × Json) × Json :=
  let source := ((args.get "source").get "path").asString
  let bps := (args.get "breakpoints").asArr
  let step := fun (acc : DAPState × List Json) (bp : Json) =>
    let (st, arr) := acc
    let line := (bp.get "line").asInt
    let st1 := { st with
      breakpoints := bpInsert source line st.breakpoints,
      breakpointMap := st.breakpointMap ++ [(st.nextBreakpointId, (source, line))],
      nextBreakpointId := st.nextBreakpointId + 1 }
    let respId := st1.nextBreakpointId
    let st2 := { st1 with nextBreakpointId := st1.nextBreakpointId + 1 }
    (st2, arr ++ [Json.jobj [("id", .jint respId), ("verified", .jbool true),
      ("line", .jint line)]])
  let (st', respArr) := bps.foldl step (st, [])
  (st', [], .jobj [("breakpoints", .jarr respArr)])

/-- The `type` tag `handleEvaluate` infers from a value. -/
def dapTypeTag : Value → String
  | .vint _ => "number"
  | .vfloat _ => "number"
  | .vstr _ => "string"
  | .vbool _ => "boolean"

/-- `DAPServer::handleEvaluate`: evaluate the expression against the live
interpreter store; failures become a typed error result rather than an
aborted request. DAP-routed output produced during evaluation is sent as
output events. -/
def DAPServer.handleEvaluate (st : DAPState) (args : Json) :
    DAPState × List (String × Json) × Json :=
  let expression := (args.get "expression").asString
  match BasicInterpreter.evaluateExpression st.interp st.running [] expression with
  | .ok (v, it, outs) =>
      let evs := outs.filterMap fun o =>
        match o with
        | .dapOutput c out => some (("output",
            Json.jobj [("category", .jstr c), ("output", .jstr out)]))
        | .console _ => none
      ({ st with interp := it }, evs,
       .jobj [("result", .jstr (valueToString v)), ("type", .jstr (dapTypeTag v)),
              ("variablesReference", .jint 0)])
  | .error e =>
      (st, [],
       .jobj [("result", .jstr ("[DAP] Exception: " ++ e)), ("type", .jstr "error"),
              ("variablesReference", .jint 0)])

/-- The commands registered by `DAPServer::setupHandlers`. -/
def registeredCommands : List String :=
  ["initialize", "launch", "attach", "disconnect", "terminate", "restart",
   "setBreakpoints", "setFunctionBreakpoints", "setExceptionBreakpoints",
   "continue", "next", "stepIn", "stepOut", "pause", "stackTrace", "scopes",
   "variables", "evaluate", "setVariable", "source", "threads", "modules",
   "loadedSources", "exceptionInfo", "loadSource"]

/-- The handler table as a function: exactly the registered command names
resolve, each to its implementation. `impl` abstracts the individual
handler bodies, none of which the dispatch contract depends on. -/
def requestHandlersOf (impl : String → HandlerFn) (c : String) : Option HandlerFn :=
  if registeredCommands.contains c then some (impl c) else none

/-- `DAPServer::processMessage`: for a request, a found handler runs and its
result is wrapped in exactly one response carrying the request id; an unknown
non-empty command is answered with exactly one method-not-found error
response; an empty command only triggers the connection-recovery branch
(`stop()`; `start(port_, enableLogging_)` — no wire output). -/
def processMessageWith (handlers : String → Option HandlerFn) (st : DAPState)
    (msg : DAPMessage) : DAPState × List WireMsg :=
  if msg.type = .REQUEST then
    match handlers msg.command with
    | some h =>
        let (st', evs, result) := h st msg.arguments
        (st', evs.map (fun e => WireMsg.event e.1 e.2) ++
          [wireOfResponse (createResponse msg.id result)])
    | none =>
      if msg.command ≠ "" then
        (st, [wireOfResponse (createErrorResponse msg.id (-32601) "Method not found")])
      else if st.checkConnection then
        ({ st with checkConnection := false, running := true, useNetwork := true }, [])
      else (st, [])
  else (st, [])

end SBasic

namespace SBasic

/-! ## Claim theorems: runtime value operations -/

/-- C2. For numeric operands, division and modulo with a zero right-hand
side raise the runtime errors "Division by zero" / "Modulo by zero"; with a
nonzero right-hand side they return the floating-point quotient and
`fmod` remainder without error. -/
theorem C2_divide_modulo_by_zero (a b : Value) (x y : ℚ)
    (ha : numVal a = some x) (hb : numVal b = some y) :
    (y = 0 → Runtime.divide a b = .error "Division by zero" ∧
             Runtime.modulo a b = .error "Modulo by zero") ∧
    (y ≠ 0 → Runtime.divide a b = .ok (.vfloat (x / y)) ∧
             Runtime.modulo a b = .ok (.vfloat (qfmod x y))) := by
  constructor
  · intro hy
    constructor <;> simp [Runtime.divide, Runtime.modulo, ha, hb, hy]
  · intro hy
    constructor <;> simp [Runtime.divide, Runtime.modulo, ha, hb, hy]

theorem C2_divide_modulo_by_zero_witness :
    Runtime.divide (.vint 7) (.vint 0) = .error "Division by zero" ∧
    Runtime.modulo (.vint 7) (.vint 0) = .error "Modulo by zero" ∧
    Runtime.divide (.vint 7) (.vint 2) = .ok (.vfloat (7 / 2)) ∧
    Runtime.modulo (.vint 7) (.vint 2) = .ok (.vfloat 1) := by
  have h0 := (C2_divide_modulo_by_zero (.vint 7) (.vint 0) 7 0 rfl (by norm_num [numVal])).1 rfl
  have h2 := (C2_divide_modulo_by_zero (.vint 7) (.vint 2) 7 2 rfl (by norm_num [numVal])).2 (by norm_num)
  refine ⟨h0.1, h0.2, h2.1, ?_⟩
  rw [h2.2]
  with_unfolding_all rfl

end SBasic

namespace SBasic

/-- C3 counterexample: a string compared to the number 0 is *equal* (both
sides convert to 0.0), and ordering a string against a number returns a
boolean result instead of raising an error. -/
theorem C3_cross_type_comparison_counterexample :
    Runtime.isEqual (.vstr "abc") (.vint 0) = true ∧
    Runtime.isLessThan (.vstr "abc") (.vint 5) = true ∧
    Runtime.isLessThan (.vint (-1)) (.vstr "abc") = true := by decide

/-- C3 amended: mixed-kind comparisons convert both operands to doubles with
non-numeric operands contributing 0.0 — so string-versus-number equality
holds exactly when the number is zero, and ordering compares the number
against zero without any error; mixed int/float pairs compare by
floating-point value, and two strings compare lexically. -/
theorem C3_cross_type_comparison_amended (s t : String) (n a : Int) (q : ℚ) :
    (Runtime.isEqual (.vstr s) (.vint n) = true ↔ n = 0) ∧
    (Runtime.isEqual (.vint n) (.vstr s) = true ↔ n = 0) ∧
    (Runtime.isEqual (.vstr s) (.vfloat q) = true ↔ q = 0) ∧
    (Runtime.isEqual (.vfloat q) (.vstr s) = true ↔ q = 0) ∧
    (Runtime.isLessThan (.vstr s) (.vint n) = true ↔ 0 < n) ∧
    (Runtime.isLessThan (.vint n) (.vstr s) = true ↔ n < 0) ∧
    (Runtime.isLessThan (.vstr s) (.vfloat q) = true ↔ 0 < q) ∧
    (Runtime.isLessThan (.vfloat q) (.vstr s) = true ↔ q < 0) ∧
    (Runtime.isEqual (.vint a) (.vfloat q) = true ↔ (a : ℚ) = q) ∧
    (Runtime.isLessThan (.vint a) (.vfloat q) = true ↔ (a : ℚ) < q) ∧
    (Runtime.isEqual (.vstr s) (.vstr t) = true ↔ s = t) ∧
    (Runtime.isLessThan (.vstr s) (.vstr t) = true ↔ s < t) := by
  refine ⟨?_, ?_, ?_, ?_, ?_, ?_, ?_, ?_, ?_, ?_, ?_, ?_⟩ <;>
    simp [Runtime.isEqual, Runtime.isLessThan, toDouble0]
  all_goals try norm_cast
  all_goals exact eq_comm

/-- Is a value the string alternative? -/
def Value.isStr : Value → Bool
  | .vstr _ => true
  | _ => false

/-- C4 counterexample: adding a string and a number does not raise an error —
it yields `0.0` — and adding two integers yields a *floating-point* sum. -/
theorem C4_add_type_mixing_counterexample :
    Runtime.add (.vstr "a") (.vint 1) = .vfloat 0 ∧
    Runtime.add (.vint 2) (.vint 3) = .vfloat 5 := by
  constructor <;> norm_num [Runtime.add, numVal]

/-- C4 amended: string + string concatenates; numeric + numeric yields the
floating-point sum (always floating-point, also for int + int); every other
combination yields `0.0` silently instead of raising an error. -/
theorem C4_add_type_mixing_amended (a b : Value) (x y : ℚ) (s t : String) :
    (Runtime.add (.vstr s) (.vstr t) = .vstr (s ++ t)) ∧
    (numVal a = some x → numVal b = some y → Runtime.add a b = .vfloat (x + y)) ∧
    ((a.isStr && b.isStr) = false → (numVal a).isNone ∨ (numVal b).isNone →
      Runtime.add a b = .vfloat 0) := by
  refine ⟨rfl, ?_, ?_⟩
  · intro h1 h2
    cases a <;> cases b <;> simp_all [Runtime.add, numVal]
  · intro h1 h2
    cases a <;> cases b <;> simp_all [Runtime.add, numVal, Value.isStr]

theorem C4_add_type_mixing_witness :
    Runtime.add (.vstr "x") (.vstr "y") = .vstr "xy" ∧
    Runtime.add (.vint 1) (.vfloat (1 / 2)) = .vfloat (3 / 2) ∧
    Runtime.add (.vbool true) (.vint 1) = .vfloat 0 := by
  refine ⟨(C4_add_type_mixing_amended (.vint 0) (.vint 0) 0 0 "x" "y").1, ?_, ?_⟩
  · have h := (C4_add_type_mixing_amended (.vint 1) (.vfloat (1 / 2)) 1 (1 / 2) "" "").2.1
      rfl rfl
    rw [h]; norm_num
  · exact (C4_add_type_mixing_amended (.vbool true) (.vint 1) 0 0 "" "").2.2 rfl (by decide)

/-- C10. Reading an undefined variable neither fails nor mutates: the store
returns the integer default `0`, and `Identifier` evaluation returns it with
the runtime state unchanged. -/
theorem C10_undefined_variable_default (name : String) (st : RState) (f : Nat)
    (h : List.lookup name st.vars = none) :
    Variables.get name st.vars = .vint 0 ∧
    Runtime.exec (f + 1) (.ident name) st = .ok (.vint 0, st) := by
  constructor
  · simp [Variables.get, h]
  · simp [Runtime.exec, Variables.get, h]

theorem C10_undefined_variable_default_witness :
    Variables.get "Z" (([] : List (String × Value)) : Vars) = .vint 0 ∧
    Runtime.exec 1 (.ident "Z") ⟨([] : List (String × Value)), [], false, [], []⟩ =
      .ok (.vint 0, ⟨([] : List (String × Value)), [], false, [], []⟩) :=
  C10_undefined_variable_default "Z" ⟨([] : List (String × Value)), [], false, [], []⟩ 0 rfl

end SBasic

namespace SBasic

/-! ## Claim theorems: literals, evaluation pipeline, PRINT -/

/-- C5 (code bug). `parsePrimary` matches the NUMBER token and then tests
`current()` — the token *after* the number — for a decimal point, while the
conversion uses `last()`. A standalone dotted literal is therefore sent down
the `stoi` path, which truncates: `"3.14"` parses (and evaluates) to the
integer `3`, not a floating-point `3.14`. Dotless literals do round-trip
(second conjunct), and in the lexer a second dot terminates the number and is
left unconsumed, starting the next token (last conjunct). -/
theorem C5_numeric_literal_roundtrip_bug :
    BasicInterpreter.evaluateExpression InterpState.init false [] "3.14" =
      .ok (.vint 3, InterpState.init, []) ∧
    BasicInterpreter.evaluateExpression InterpState.init false [] "42" =
      .ok (.vint 42, InterpState.init, []) ∧
    valueToString (.vint 42) = "42" ∧
    Lexer.tokenize "1.2.3" =
      .ok [⟨.NUMBER, "1.2", 1, 1⟩, ⟨.NUMBER, ".3", 1, 4⟩, ⟨.EOF_TOKEN, "", 1, 6⟩] := by
  refine ⟨?_, ?_, ?_, ?_⟩ <;> rfl

/-- C6 (code bug). Two slips break both halves of the claim:
`parseExpression`/`parseTerm` store `current().type` — the token *after* the
matched operator — as the binary operator, so `2+2*2` builds nodes whose
operator is `NUMBER` and the evaluator's `default` case returns `Value{}`,
i.e. `0`, not `6`; and `Functions::call` treats a built-in result of variant
index `0` as "not a built-in", but index `0` is `int`, so `LEN`'s integer
result is discarded and the call throws `Function 'LEN' not defined` instead
of returning `3`. -/
theorem C6_evaluate_examples_bug :
    BasicInterpreter.evaluateExpression InterpState.init false [] "2+2*2" =
      .ok (.vint 0, InterpState.init, []) ∧
    BasicInterpreter.evaluateExpression InterpState.init false [] "LEN(\"abc\")" =
      .error "Function 'LEN' not defined" := by
  refine ⟨?_, ?_⟩ <;> rfl

/-- `Except.ok` bound into a continuation steps by definition. -/
theorem ok_bind {α β : Type} (a : α) (g : α → Except String β) :
    (Except.ok a : Except String α) >>= g = g a := rfl

/-- Evaluating a literal is pure. -/
theorem exec_literal (f : Nat) (v : Value) (st : RState) :
    Runtime.exec (f + 1) (.literal v) st = .ok (v, st) := rfl

/-- Accumulating a list of literal expressions yields exactly their values
and leaves the state unchanged. -/
theorem accumStep_literals (f : Nat) (vs acc : List Value) (st : RState) :
    (vs.map AST.literal).foldlM (accumStep (Runtime.exec (f + 1))) (acc, st) =
      .ok (acc ++ vs, st) := by
  induction vs generalizing acc with
  | nil =>
      show pure (acc, st) = Except.ok (acc ++ [], st)
      simp [pure, Except.pure]
  | cons v rest ih =>
      simp only [List.map_cons, List.foldlM_cons, accumStep, exec_literal, ok_bind]
      simpa using ih (acc ++ [v])

/-- The `executePrintStatement` case of the evaluator, unfolded once. -/
theorem exec_printStmt (f : Nat) (exprs : List AST) (st : RState) :
    Runtime.exec (f + 1) (.printStmt exprs) st = (do
      let (vals, st') ← exprs.foldlM (accumStep (Runtime.exec f)) (([] : List Value), st)
      let line := joinSpace (vals.map ostreamValue) ++ "\n"
      let out := if st'.dapActive then OutputRec.dapOutput line "stdout"
        else OutputRec.console line
      .ok (Value.defaultV, { st' with outputs := st'.outputs ++ [out] })) := rfl

/-- C7 counterexample. In `parsePrintStatement` a semicolon *terminates* the
expression list, so `PRINT "Hello, "; "World!"` prints only its first field:
the emitted text is `"Hello, \n"`, not `"Hello,  World!"` followed by a line
terminator. Routing does follow the claimed rule: a console write without an
active debug session, an output event (text in the event's `category` slot)
with one. -/
theorem C7_print_semicolon_counterexample :
    BasicInterpreter.evaluateExpression InterpState.init false []
        "PRINT \"Hello, \"; \"World!\"" =
      .ok (.vint 0, InterpState.init, [.console "Hello, \n"]) ∧
    BasicInterpreter.evaluateExpression InterpState.init true []
        "PRINT \"Hello, \"; \"World!\"" =
      .ok (.vint 0, InterpState.init, [.dapOutput "Hello, \n" "stdout"]) := by
  refine ⟨?_, ?_⟩ <;> rfl

/-- C7 amended. A PRINT statement evaluates its (comma-separated) expressions,
joins their rendered forms with a single space, appends one line terminator,
and routes the line to a DAP output event exactly when a debug session is
active and to the console otherwise; a semicolon ends the expression list, so
the claim's example emits only `"Hello, \n"`. -/
theorem C7_print_join_routing_amended (vs : List Value) (st : RState) (f : Nat) :
    Runtime.exec (f + 2) (.printStmt (vs.map AST.literal)) st =
      .ok (Value.defaultV, { st with outputs := st.outputs ++
        [if st.dapActive then
            OutputRec.dapOutput (joinSpace (vs.map ostreamValue) ++ "\n") "stdout"
         else OutputRec.console (joinSpace (vs.map ostreamValue) ++ "\n")] }) := by
  rw [exec_printStmt, accumStep_literals]
  simp [ok_bind]

end SBasic

namespace SBasic

/-! ## Claim support: FOR-loop semantics -/

/-- The spec's test body for the FOR examples: "a body that appends I" — it
reads the loop variable and appends its rendered value to the output, leaving
everything else untouched. -/
def appendVar (name : String) (st : RState) : Except String (Value × RState) :=
  .ok (Value.defaultV,
    { st with outputs := st.outputs ++
        [.console (ostreamValue (Variables.get name st.vars))] })

/-- The arithmetic progression a FOR loop is expected to traverse. -/
def arithSeq (startV stepV : ℚ) : Nat → List ℚ
  | 0 => []
  | n + 1 => startV :: arithSeq (startV + stepV) stepV n

theorem Variables.get_set (name : String) (v : Value) (vs : Vars) :
    Variables.get name (Variables.set name v vs) = v := by
  induction vs with
  | nil => simp [Variables.set, Variables.get, List.lookup]
  | cons p rest ih =>
      obtain ⟨m, w⟩ := p
      by_cases h : m = name
      · subst h
        simp [Variables.set, Variables.get, List.lookup]
      · have h' : (name == m) = false := by
          simp [beq_eq_false_iff_ne]
          exact Ne.symm h
        simp only [Variables.set, if_neg h, Variables.get, List.lookup, h']
        exact ih

theorem Variables.set_set (name : String) (v w : Value) (vs : Vars) :
    Variables.set name v (Variables.set name w vs) = Variables.set name v vs := by
  induction vs with
  | nil => simp [Variables.set]
  | cons p rest ih =>
      obtain ⟨m, w'⟩ := p
      by_cases h : m = name
      · subst h; simp [Variables.set]
      · simp [Variables.set, h, ih]

end SBasic

namespace SBasic

/-- The `executeForStatement` loop, run with the appending probe body over a
store where the loop variable holds `startV`: under the source's loop
condition — continue while `step > 0` implies `value ≤ end` and `step < 0`
implies `value ≥ end` — the body runs exactly once per element of the
arithmetic progression, in order, and the variable is incremented by the step
after each body execution. -/
theorem forLoop_probe (n : Nat) : ∀ (fuel : Nat) (name : String)
    (startV endV stepV : ℚ) (vs0 : Vars) (st : RState),
    st.vars = Variables.set name (.vfloat startV) vs0 →
    ((0 < stepV ∧ (∀ i : Nat, i < n → startV + i * stepV ≤ endV) ∧
        endV < startV + n * stepV) ∨
     (stepV < 0 ∧ (∀ i : Nat, i < n → endV ≤ startV + i * stepV) ∧
        startV + n * stepV < endV)) →
    n < fuel →
    forLoop fuel (appendVar name) name endV stepV st =
      .ok { st with
        vars := Variables.set name (.vfloat (startV + n * stepV)) vs0,
        outputs := st.outputs ++ (arithSeq startV stepV n).map
          (fun q => OutputRec.console (ostreamValue (.vfloat q))) } := by
  induction n with
  | zero =>
      intro fuel name startV endV stepV vs0 st hvars hdir hfuel
      obtain ⟨f, rfl⟩ : ∃ f, fuel = f + 1 := ⟨fuel - 1, by omega⟩
      have hcur : toDouble0 (Variables.get name st.vars) = startV := by
        rw [hvars, Variables.get_set]; rfl
      simp only [forLoop, hcur, arithSeq, List.map_nil, List.append_nil,
        Nat.cast_zero, zero_mul, add_zero, ← hvars]
      rcases hdir with ⟨hstep, _, hend⟩ | ⟨hstep, _, hend⟩
      · rw [if_pos ⟨hstep, by simpa using hend⟩]
      · rw [if_neg (by push_neg; intro h; linarith),
            if_pos ⟨hstep, by simpa using hend⟩]
  | succ n ih =>
      intro fuel name startV endV stepV vs0 st hvars hdir hfuel
      obtain ⟨f, rfl⟩ : ∃ f, fuel = f + 1 := ⟨fuel - 1, by omega⟩
      have hcur : toDouble0 (Variables.get name st.vars) = startV := by
        rw [hvars, Variables.get_set]; rfl
      have hbound : (0 < stepV ∧ startV ≤ endV) ∨ (stepV < 0 ∧ endV ≤ startV) := by
        rcases hdir with ⟨hstep, hall, _⟩ | ⟨hstep, hall, _⟩
        · exact .inl ⟨hstep, by simpa using hall 0 (by omega)⟩
        · exact .inr ⟨hstep, by simpa using hall 0 (by omega)⟩
      simp only [forLoop, hcur]
      rw [if_neg (by rcases hbound with ⟨h1, h2⟩ | ⟨h1, h2⟩ <;> push_neg <;> intro <;> linarith),
          if_neg (by rcases hbound with ⟨h1, h2⟩ | ⟨h1, h2⟩ <;> push_neg <;> intro <;> linarith)]
      simp only [appendVar, ok_bind]
      have hvars'' :
          (Variables.set name (.vfloat (startV + stepV))
            ({ st with outputs := st.outputs ++
                [.console (ostreamValue (Variables.get name st.vars))] } : RState).vars) =
          Variables.set name (.vfloat (startV + stepV)) vs0 := by
        simp only [hvars, Variables.set_set]
      have hdir' :
          (0 < stepV ∧ (∀ i : Nat, i < n → (startV + stepV) + i * stepV ≤ endV) ∧
              endV < (startV + stepV) + n * stepV) ∨
          (stepV < 0 ∧ (∀ i : Nat, i < n → endV ≤ (startV + stepV) + i * stepV) ∧
              (startV + stepV) + n * stepV < endV) := by
        rcases hdir with ⟨hstep, hall, hend⟩ | ⟨hstep, hall, hend⟩
        · refine .inl ⟨hstep, fun i hi => ?_, ?_⟩
          · have := hall (i + 1) (by omega)
            push_cast at this ⊢; linarith
          · push_cast at hend ⊢; linarith
        · refine .inr ⟨hstep, fun i hi => ?_, ?_⟩
          · have := hall (i + 1) (by omega)
            push_cast at this ⊢; linarith
          · push_cast at hend ⊢; linarith
      rw [ih f name (startV + stepV) endV stepV vs0 _ (by simpa using hvars'') hdir' (by omega)]
      simp only [arithSeq, List.map_cons, List.append_assoc, List.cons_append,
        List.nil_append]
      congr 2
      · congr 1
        push_cast; ring_nf
      · rw [hvars, Variables.get_set]

end SBasic

namespace SBasic

/-- The `executeForStatement` case of the evaluator, unfolded once:
start/end/step are each evaluated once (step defaulting to `Value{1}`), all
three are coerced to doubles, the variable is assigned the start value, and
the loop runs. -/
theorem exec_forStmt (f : Nat) (name : String) (s e : AST) (stepE : Option AST)
    (body : AST) (st : RState) :
    Runtime.exec (f + 1) (.forStmt name s e stepE body) st = (do
      let (startV, st1) ← Runtime.exec f s st
      let (endV, st2) ← Runtime.exec f e st1
      let (stepV, st3) ←
        match stepE with
        | some se => Runtime.exec f se st2
        | none => .ok (Value.vint 1, st2)
      let startQ := toDouble0 startV
      let endQ := toDouble0 endV
      let stepQ := toDouble1 stepV
      let st4 := { st3 with vars := Variables.set name (.vfloat startQ) st3.vars }
      let st5 ← forLoop f (Runtime.exec f body) name endQ stepQ st4
      .ok (Value.defaultV, st5)) := rfl

/-- C1. The FOR semantics, settled piecewise. (a) An absent STEP behaves
exactly like an explicit literal step of 1. (b) With the loop variable
assigned the start value and the source's loop condition (`step>0` implies
`value<=end`, `step<0` implies `value>=end`) delimiting `n` iterations, the
loop runs a body that appends the variable exactly `n` times, over the
arithmetic progression, incrementing by the step after each body run — in
both directions. (c) `FOR I = 1 TO 5 PRINT I` runs its body exactly 5 times
with I taking 1,2,3,4,5 in order. (d) BUT the claim's descending example
`FOR I = 5 TO 1 STEP -1` does not parse: `parsePrimary` has no unary-minus
production, so `-1` raises "Unexpected token: -", the statement is discarded,
and the claim fails at the parser even though (e) the runtime loop itself
descends 5,4,3,2,1 when handed a step of -1. -/
theorem C1_for_loop_semantics :
    (∀ (f : Nat) (name : String) (s e body : AST) (st : RState),
        Runtime.exec (f + 2) (.forStmt name s e none body) st =
          Runtime.exec (f + 2) (.forStmt name s e (some (.literal (.vint 1))) body) st) ∧
    (∀ (n fuel : Nat) (name : String) (startV endV stepV : ℚ) (vs0 : Vars) (st : RState),
        st.vars = Variables.set name (.vfloat startV) vs0 →
        ((0 < stepV ∧ (∀ i : Nat, i < n → startV + i * stepV ≤ endV) ∧
            endV < startV + n * stepV) ∨
         (stepV < 0 ∧ (∀ i : Nat, i < n → endV ≤ startV + i * stepV) ∧
            startV + n * stepV < endV)) →
        n < fuel →
        forLoop fuel (appendVar name) name endV stepV st =
          .ok { st with
            vars := Variables.set name (.vfloat (startV + n * stepV)) vs0,
            outputs := st.outputs ++ (arithSeq startV stepV n).map
              (fun q => OutputRec.console (ostreamValue (.vfloat q))) }) ∧
    BasicInterpreter.evaluateExpression InterpState.init false [] "FOR I = 1 TO 5 PRINT I" =
      .ok (.vint 0, { InterpState.init with vars := [("I", .vfloat 6)] },
        [.console "1\n", .console "2\n", .console "3\n", .console "4\n",
         .console "5\n"]) ∧
    BasicInterpreter.evaluateExpression InterpState.init false []
        "FOR I = 5 TO 1 STEP -1 PRINT I" =
      .error "Failed to parse expression" ∧
    forLoop 6 (appendVar "I") "I" 1 (-1)
        ⟨Variables.set "I" (.vfloat 5) [], [], false, [], []⟩ =
      .ok ⟨Variables.set "I" (.vfloat 0) [], [], false,
        [.console "5", .console "4", .console "3", .console "2", .console "1"], []⟩ := by
  refine ⟨?_, forLoop_probe, ?_, ?_, ?_⟩
  · intro f name s e body st
    rw [exec_forStmt, exec_forStmt]
    simp only [exec_literal]
  · with_unfolding_all rfl
  · rfl
  · with_unfolding_all rfl

theorem C1_for_loop_semantics_witness :
    forLoop 6 (appendVar "I") "I" 5 1
        ⟨Variables.set "I" (.vfloat 1) [], [], false, [], []⟩ =
      .ok ⟨Variables.set "I" (.vfloat 6) [], [], false,
        [.console "1", .console "2", .console "3", .console "4", .console "5"], []⟩ := by
  have h := C1_for_loop_semantics.2.1 5 6 "I" 1 5 1 []
    ⟨Variables.set "I" (.vfloat 1) [], [], false, [], []⟩ rfl
    (.inl ⟨by norm_num, by intro i hi; interval_cases i <;> norm_num, by norm_num⟩)
    (by omega)
  rw [h]
  with_unfolding_all rfl

end SBasic

namespace SBasic

/-- Events wrapped by the dispatcher are never response frames. -/
theorem filter_isResponse_events (evs : List (String × Json)) :
    (evs.map (fun e => WireMsg.event e.1 e.2)).filter WireMsg.isResponse = [] := by
  induction evs with
  | nil => rfl
  | cons e rest ih => simp [WireMsg.isResponse, ih]

/-- C8. Request dispatch: an inbound request whose command is non-empty but
not among the registered handlers is answered with exactly one error response
carrying the request's sequence id and the method-not-found code (-32601); a
request with a registered handler produces exactly one response — success,
since handlers return results and never error payloads — with the same
sequence id, whatever the handler implementations do. -/
theorem C8_request_dispatch (impl : String → HandlerFn) (st : DAPState)
    (msg : DAPMessage) (hreq : msg.type = .REQUEST) :
    (msg.command ∉ registeredCommands → msg.command ≠ "" →
      (processMessageWith (requestHandlersOf impl) st msg).2 =
        [.response msg.id none false
          (.jobj [("code", .jint (-32601)), ("message", .jstr "Method not found")])
          .null]) ∧
    (msg.command ∈ registeredCommands →
      ((processMessageWith (requestHandlersOf impl) st msg).2.filter WireMsg.isResponse) =
        [.response msg.id none true .null (impl msg.command st msg.arguments).2.2]) := by
  constructor
  · intro hc hne
    simp [processMessageWith, requestHandlersOf, hreq, hc, hne, wireOfResponse,
      createErrorResponse, Json.isNull, String.isEmpty]
  · intro hc
    simp [processMessageWith, requestHandlersOf, hreq, hc, wireOfResponse,
      createResponse, Json.isNull, List.filter_append, filter_isResponse_events,
      WireMsg.isResponse, String.isEmpty]

theorem C8_request_dispatch_witness :
    (processMessageWith
        (requestHandlersOf (fun _ => fun st _ => (st, [], .jobj []))) {}
        { type := .REQUEST, command := "bogus", id := .jint 7 }).2 =
      [.response (.jint 7) none false
        (.jobj [("code", .jint (-32601)), ("message", .jstr "Method not found")])
        .null] ∧
    ((processMessageWith
        (requestHandlersOf (fun _ => fun st _ => (st, [], .jobj []))) {}
        { type := .REQUEST, command := "threads", id := .jint 8 }).2.filter
      WireMsg.isResponse) =
      [.response (.jint 8) none true .null (.jobj [])] := by
  constructor
  · exact (C8_request_dispatch (fun _ => fun st _ => (st, [], .jobj [])) {}
      { type := .REQUEST, command := "bogus", id := .jint 7 } rfl).1 (by decide)
      (by decide)
  · exact (C8_request_dispatch (fun _ => fun st _ => (st, [], .jobj [])) {}
      { type := .REQUEST, command := "threads", id := .jint 8 } rfl).2 (by decide)

end SBasic

namespace SBasic

/-! ## Claim support: disconnect / relaunch session state -/

/-- First-session launch arguments: an inline `{path, content}` program. -/
def c9FirstLaunchArgs : Json :=
  .jobj [("program", .jobj [("path", .jstr "a.bas"),
    ("content", .jstr "LET X = 1\nPRINT X")])]

/-- A breakpoint on line 1 of the first session's source. -/
def c9SetBreakpointsArgs : Json :=
  .jobj [("source", .jobj [("path", .jstr "a.bas")]),
         ("breakpoints", .jarr [.jobj [("line", .jint 1)]])]

/-- An evaluate request that mutates the variable store. -/
def c9EvaluateArgs : Json := .jobj [("expression", .jstr "LET X = 5")]

/-- Second-session launch arguments. -/
def c9SecondLaunchArgs : Json :=
  .jobj [("program", .jobj [("path", .jstr "b.bas"), ("content", .jstr "PRINT 1")])]

/-- Server state after launch, setBreakpoints and evaluate on `a.bas`. -/
def c9SessionOne : DAPState :=
  (DAPServer.handleEvaluate
    ((DAPServer.handleSetBreakpoints
      ((DAPServer.handleLaunch {} c9FirstLaunchArgs).1) c9SetBreakpointsArgs).1)
    c9EvaluateArgs).1

/-- Server state after a disconnect and a fresh launch of `b.bas`. -/
def c9AfterRelaunch : DAPState :=
  (DAPServer.handleLaunch
    ((DAPServer.handleDisconnect c9SessionOne .null).1) c9SecondLaunchArgs).1

/-- C9 counterexample. After a disconnect and a fresh launch, the breakpoint
keyed to the previous session's source name `"a.bas"` is still in the
breakpoint set — `handleDisconnect` never touches `breakpoints_` — even
though the variable store and line cursor were indeed reset. -/
theorem C9_session_reset_counterexample :
    c9SessionOne.interp.vars = [("X", .vint 5)] ∧
    c9SessionOne.currentSource = "a.bas" ∧
    c9SessionOne.breakpoints = [("a.bas", [1])] ∧
    c9AfterRelaunch.breakpoints = [("a.bas", [1])] ∧
    c9AfterRelaunch.interp.vars = [] ∧
    c9AfterRelaunch.currentLine = 0 := by
  refine ⟨?_, ?_, ?_, ?_, ?_, ?_⟩ <;> rfl

/-- `loadProgram` never touches the variable store. -/
theorem loadProgram_vars (it : InterpState) (src : String) :
    (BasicInterpreter.loadProgram it src).1.vars = it.vars := by
  unfold BasicInterpreter.loadProgram
  cases h : Lexer.tokenize src with
  | error e => simp
  | ok toks => cases hp : Parser.parse toks <;> simp [hp]

/-- `loadProgram` resets the line cursor. -/
theorem loadProgram_currentLine (it : InterpState) (src : String) :
    (BasicInterpreter.loadProgram it src).1.currentLine = 0 := by
  unfold BasicInterpreter.loadProgram
  cases h : Lexer.tokenize src with
  | error e => simp
  | ok toks => cases hp : Parser.parse toks <;> simp [hp]

/-- `launchLoadSource` only touches `sources`/`currentSource`. -/
theorem launchLoadSource_fields (st : DAPState) (args : Json) :
    (DAPServer.launchLoadSource st args).breakpoints = st.breakpoints ∧
    (DAPServer.launchLoadSource st args).interp = st.interp ∧
    (DAPServer.launchLoadSource st args).currentLine = st.currentLine := by
  refine ⟨?_, ?_, ?_⟩ <;>
    (simp only [DAPServer.launchLoadSource, DAPServer.addSource]
     split_ifs <;> rfl)

/-- `launchStartInterp` keeps breakpoints and the server cursor, keeps the
interpreter's variables, and leaves the interpreter's cursor reset or
untouched. -/
theorem launchStartInterp_fields (st : DAPState) :
    (DAPServer.launchStartInterp st).breakpoints = st.breakpoints ∧
    (DAPServer.launchStartInterp st).interp.vars = st.interp.vars ∧
    (DAPServer.launchStartInterp st).currentLine = st.currentLine ∧
    ((DAPServer.launchStartInterp st).interp.currentLine = 0 ∨
      (DAPServer.launchStartInterp st).interp.currentLine = st.interp.currentLine) := by
  refine ⟨?_, ?_, ?_, ?_⟩ <;>
    (simp only [DAPServer.launchStartInterp, BasicInterpreter.pause]
     split_ifs <;>
       simp [loadProgram_vars, loadProgram_currentLine])


/-- `handleLaunch` keeps the breakpoint map, keeps the interpreter's
variables, zeroes the server's line cursor, and leaves the interpreter's
cursor either reset by `loadProgram` or untouched. -/
theorem handleLaunch_fields (st : DAPState) (args : Json) :
    ((DAPServer.handleLaunch st args).1).breakpoints = st.breakpoints ∧
    ((DAPServer.handleLaunch st args).1).interp.vars = st.interp.vars ∧
    ((DAPServer.handleLaunch st args).1).currentLine = 0 ∧
    (((DAPServer.handleLaunch st args).1).interp.currentLine = 0 ∨
      ((DAPServer.handleLaunch st args).1).interp.currentLine = st.interp.currentLine) := by
  have h0 : ({ st with debugging := true, currentLine := 0 } : DAPState).breakpoints
      = st.breakpoints := rfl
  have hLs := launchLoadSource_fields { st with debugging := true, currentLine := 0 } args
  have hSi := launchStartInterp_fields
    (DAPServer.launchLoadSource { st with debugging := true, currentLine := 0 } args)
  unfold DAPServer.handleLaunch
  refine ⟨?_, ?_, ?_, ?_⟩
  · rw [hSi.1, hLs.1]
  · rw [hSi.2.1, hLs.2.1]
  · rw [hSi.2.2.1, hLs.2.2]
  · rcases hSi.2.2.2 with h | h
    · exact Or.inl h
    · rw [h, hLs.2.1]
      exact Or.inr rfl

/-- C9 amended. Disconnect followed by a fresh launch does reset the variable
store (empty afterwards), resets both line cursors to 0, and removes the old
source's text — but the breakpoint set, including every entry keyed to the
previously loaded source name, survives both handlers unchanged. -/
theorem C9_session_reset_amended (st : DAPState) (argsD argsL : Json) :
    ((DAPServer.handleLaunch ((DAPServer.handleDisconnect st argsD).1) argsL).1).interp.vars
        = [] ∧
    ((DAPServer.handleLaunch ((DAPServer.handleDisconnect st argsD).1) argsL).1).currentLine
        = 0 ∧
    ((DAPServer.handleLaunch ((DAPServer.handleDisconnect st argsD).1) argsL).1).interp.currentLine
        = 0 ∧
    List.lookup st.currentSource ((DAPServer.handleDisconnect st argsD).1).sources = none ∧
    ((DAPServer.handleLaunch ((DAPServer.handleDisconnect st argsD).1) argsL).1).breakpoints
        = st.breakpoints := by
  have hL := handleLaunch_fields ((DAPServer.handleDisconnect st argsD).1) argsL
  have hD1 : ((DAPServer.handleDisconnect st argsD).1).interp = InterpState.init := rfl
  have hD2 : ((DAPServer.handleDisconnect st argsD).1).breakpoints = st.breakpoints := rfl
  refine ⟨?_, hL.2.2.1, ?_, ?_, ?_⟩
  · rw [hL.2.1, hD1]; rfl
  · rcases hL.2.2.2 with h | h
    · exact h
    · rw [h, hD1]; rfl
  · show List.lookup st.currentSource (st.sources.filter (fun p => p.1 ≠ st.currentSource))
        = none
    induction st.sources with
    | nil => rfl
    | cons p rest ih =>
        by_cases h : p.1 = st.currentSource
        · simpa [List.filter, h] using ih
        · have h' : (st.currentSource == p.1) = false := by
            simpa [beq_eq_false_iff_ne] using Ne.symm h
          simpa [List.filter, h, List.lookup, h'] using ih
  · rw [hL.1, hD2]

end SBasic
